import Mathlib

/-!
Shallow embedding of the open-github sandbox orchestrator and caching
reverse proxy.  Strings are modelled as lists of characters (Str); JS
string split / join / parseInt are modelled explicitly; timestamps are
integers; asynchronous effects (provider calls, docker commands, fetches)
are passed in as explicit outcome parameters or oracles.
-/

deriving instance DecidableEq for Except

namespace OpenGithub

/-- Strings of the modelled program, as lists of characters. -/
abbrev Str := List Char

/-- JS String.split with a one-character separator: splitCh c l returns the
chunks of l between occurrences of c; the empty list splits to one empty
chunk, matching JS where "".split(sep) = [""]. -/
def splitCh (c : Char) (l : Str) : List Str :=
  l.foldr (fun x r => if x = c then [] :: r else (x :: r.headI) :: r.tail) [[]]

/-- JS Array.join with a one-character separator. -/
def joinCh (c : Char) : List Str → Str
  | [] => []
  | [x] => x
  | x :: y :: rest => x ++ c :: joinCh c (y :: rest)

/-- Decimal digit test, as used by the JS parseInt model. -/
def isDig (c : Char) : Bool := 48 ≤ c.toNat && c.toNat ≤ 57

/-- Whitespace skipped by JS parseInt before the number. -/
def isJsSpace (c : Char) : Bool := c = ' ' || c = '\t' || c = '\n' || c = '\r'

/-- Numeric value of a decimal digit character. -/
def digitVal (c : Char) : Nat := c.toNat - 48

/-- Value of a list of decimal digit characters, most significant first. -/
def digitsVal (l : Str) : Nat := l.foldl (fun a c => 10 * a + digitVal c) 0

/-- Maximal leading run of decimal digits, its value; none when there is
no leading digit (JS parseInt returns NaN then). -/
def parseDigits (l : Str) : Option Nat :=
  let ds := l.takeWhile isDig
  if ds.isEmpty then none else some (digitsVal ds)

/-- JS parseInt(s, 10): skip leading whitespace, optional sign, then the
maximal run of decimal digits; none models NaN. -/
def parseIntJS (s : Str) : Option Int :=
  match s.dropWhile isJsSpace with
  | [] => none
  | c :: rest =>
    if c = '-' then (parseDigits rest).map (fun n => -(n : Int))
    else if c = '+' then (parseDigits rest).map (fun n => (n : Int))
    else (parseDigits (c :: rest)).map (fun n => (n : Int))

/-- Decimal digit character for d < 10. -/
def digitCh (d : Nat) : Char :=
  match d with
  | 0 => '0' | 1 => '1' | 2 => '2' | 3 => '3' | 4 => '4'
  | 5 => '5' | 6 => '6' | 7 => '7' | 8 => '8' | _ => '9'

/-- Fuel-indexed decimal rendering of a natural number. -/
def natDecimalAux : Nat → Nat → Str
  | 0, _ => []
  | fuel + 1, n =>
    if n < 10 then [digitCh n]
    else natDecimalAux fuel (n / 10) ++ [digitCh (n % 10)]

/-- Decimal rendering of a natural number, as JS template interpolation
renders a nonnegative number. -/
def natDecimal (n : Nat) : Str := natDecimalAux (n + 1) n

/-- Decimal rendering of an integer, as JS template interpolation. -/
def intDecimal (i : Int) : Str :=
  if i < 0 then '-' :: natDecimal i.natAbs else natDecimal i.toNat

/-- Result of parseSandboxInfo: the sandbox identifier and the port. -/
structure SandboxInfo where
  sandboxId : Str
  port : Int
deriving DecidableEq

/-- parseSandboxInfo from packages/proxy/index.ts: split the host on dots,
take the leftmost label, split it on hyphens; the first hyphen chunk is the
port, the remaining chunks rejoined with hyphens are the sandbox id. -/
def parseSandboxInfoL (host : Str) : Except Str SandboxInfo :=
  let parts := splitCh '.' host
  if parts.length < 2 then Except.error (("Invalid host format").data)
  else
    let subdomain := parts.headI
    if subdomain = ([] : Str) then Except.error (("Invalid subdomain").data)
    else
      let sub := splitCh '-' subdomain
      if sub.length < 2 then
        Except.error (("Invalid subdomain format. Expected: port-sandboxId").data)
      else
        let portStr := sub.headI
        if portStr = ([] : Str) then
          Except.error (("Port is missing from subdomain").data)
        else
          match parseIntJS portStr with
          | none => Except.error (("Invalid port number").data)
          | some p => Except.ok ⟨joinCh '-' (sub.drop 1), p⟩

/-- True exactly on the ok constructor. -/
def exceptIsOk : Except Str SandboxInfo → Bool
  | .ok _ => true
  | .error _ => false

/-- The routing-error condition of the specification: fewer than two
dot-separated parts, fewer than two hyphen chunks in the leftmost label, or
a port chunk on which JS parseInt yields NaN. -/
def routingErrorSpec (host : Str) : Prop :=
  (splitCh '.' host).length < 2
  ∨ (splitCh '-' (splitCh '.' host).headI).length < 2
  ∨ parseIntJS (splitCh '-' (splitCh '.' host).headI).headI = none

/-- JS String.includes for one character. -/
def containsCh (c : Char) (l : Str) : Bool := l.any (fun x => x = c)

/-- Case-insensitive hexadecimal digit, the character class of the
/[0-9a-f]/i regex in restoreUuidFormat. -/
def isHexCI (c : Char) : Bool :=
  isDig c || ('a' ≤ c && c ≤ 'f') || ('A' ≤ c && c ≤ 'F')

/-- The canonical 8-4-4-4-12 hyphen grouping of a 32-character identifier. -/
def uuidGroups (s : Str) : Str :=
  s.take 8 ++ '-' :: ((s.drop 8).take 4) ++ '-' :: ((s.drop 12).take 4)
    ++ '-' :: ((s.drop 16).take 4) ++ '-' :: s.drop 20

/-- restoreUuidFormat from packages/proxy/index.ts: an id with a hyphen is
returned as is; a 32-character hex id (the regex carries the i flag, so
either letter case) is regrouped 8-4-4-4-12; anything else is returned
as is. -/
def restoreUuidFormatL (s : Str) : Str :=
  if containsCh '-' s then s
  else if (s.length == 32) && s.all isHexCI then uuidGroups s
  else s

/-- One preview-URL cache entry: the resolved URL and the write time. -/
structure CacheEntry where
  url : Str
  timestamp : Int
deriving DecidableEq

/-- The urlCache map, newest binding first. -/
abbrev Cache := List (Str × CacheEntry)

/-- Lookup in the cache by exact key. -/
def cacheLookup (k : Str) : Cache → Option CacheEntry
  | [] => none
  | (k2, e) :: rest => if k2 = k then some e else cacheLookup k rest

/-- Map.set: the new binding shadows any older one. -/
def cacheInsert (k : Str) (e : CacheEntry) (c : Cache) : Cache := (k, e) :: c

/-- The cache key sandboxId:port built by getPreviewUrl. -/
def previewKey (sandboxId : Str) (port : Int) : Str :=
  sandboxId ++ ':' :: intDecimal port

/-- Result of one getPreviewUrl call: the URL returned, the cache
afterwards, and how many provider (Daytona) resolutions were made. -/
structure PreviewOutcome where
  url : Str
  cache : Cache
  providerCalls : Nat
deriving DecidableEq

/-- getPreviewUrl from packages/proxy/index.ts: serve a cached entry
younger than the TTL, otherwise resolve through the provider (on the
restored UUID form of the id), store the result with the current time,
and return it. resolve is the Daytona get + getPreviewLink oracle. -/
def getPreviewUrl (resolve : Str → Int → Str) (ttl : Int) (cache : Cache)
    (now : Int) (sandboxId : Str) (port : Int) : PreviewOutcome :=
  let key := previewKey sandboxId port
  let fetched := fun (_ : Unit) =>
    let u := resolve (restoreUuidFormatL sandboxId) port
    PreviewOutcome.mk u (cacheInsert key ⟨u, now⟩ cache) 1
  match cacheLookup key cache with
  | some e => if now - e.timestamp < ttl then ⟨e.url, cache, 0⟩ else fetched ()
  | none => fetched ()

/-- What the proxy router does with one request: forward it to an upstream
URL, or abort it (the code stores the error on the request and the
proxyReq hook destroys it, so an aborted request is never forwarded). -/
inductive ForwardDecision
  | forward (url : Str)
  | abort (msg : Str)
deriving DecidableEq

/-- The router of the proxy middleware: require a host header, decode it,
resolve the preview URL through the cache; any failure aborts. -/
def routeRequest (resolve : Str → Int → Str) (ttl : Int) (cache : Cache)
    (now : Int) (host : Option Str) : ForwardDecision × Cache :=
  match host with
  | none => (.abort (("Host header is required").data), cache)
  | some h =>
    match parseSandboxInfoL h with
    | .error e => (.abort e, cache)
    | .ok info =>
      let r := getPreviewUrl resolve ttl cache now info.sandboxId info.port
      (.forward r.url, r.cache)

/-- The JSON error body sent by the proxy, with its kind field (the error
property of the body) and message. -/
structure JsonErrorBody where
  errorKind : Str
  message : Str
deriving DecidableEq

/-- The on.error handler of the proxy middleware: a stored routing error is
reported as status 500 with kind ProxyError; otherwise the upstream
connection failed and it is status 502 with kind BadGateway. -/
def onProxyError (routingErr : Option Str) : Nat × JsonErrorBody :=
  match routingErr with
  | some m => (500, ⟨("ProxyError").data, m⟩)
  | none => (502, ⟨("BadGateway").data, ("Failed to connect to sandbox").data⟩)

/-- Lifecycle status of a sandbox session (the SandboxStatus union type). -/
inductive SessStatus
  | provisioning
  | cloning
  | starting
  | ready
  | error
  | terminated
deriving DecidableEq

/-- The SandboxSession record of the Durable Object managers.  createdAt is
an ISO string in the source; it is modelled by the integer tick at which
the record was created. -/
structure SandboxSession where
  id : Str
  sessionId : Str
  owner : Str
  repo : Str
  branch : Str
  status : SessStatus
  url : Option Str
  sandboxId : Option Str
  createdAt : Int
  errorMessage : Option Str
deriving DecidableEq

/-- The create-request parameters handled by SandboxManager.createSandbox. -/
structure CreateParams where
  owner : Str
  repo : Str
  branch : Str
  sessionId : Str
  githubToken : Option Str
deriving DecidableEq

/-- Body of a create response: either the session projection
(id, url, status, createdAt) or the SDK-unavailable error body, which also
embeds the session projection. -/
inductive CreateRespBody
  | proj (id : Str) (url : Option Str) (status : SessStatus) (createdAt : Int)
  | sdkUnavailable (id : Str) (status : SessStatus) (createdAt : Int)
deriving DecidableEq

/-- An HTTP response of the create path: status code and JSON body. -/
structure CreateResp where
  status : Nat
  body : CreateRespBody
deriving DecidableEq

/-- Deployment environment of the cloudflare-service manager: whether the
Sandbox binding exists, whether ENVIRONMENT is production and
WORKER_HOSTNAME is set, and the outcome of sandbox.exposePort. -/
structure CfEnv where
  sandboxAvailable : Bool
  isProduction : Bool
  hasWorkerHostname : Bool
  exposeOutcome : Except Str Str

/-- The instance identifier sb-sessionId-now generated for a fresh
provisioning attempt (Date.now() modelled by the tick now). -/
def freshSessionId (sessionId : Str) (now : Int) : Str :=
  ("sb-").data ++ sessionId ++ '-' :: intDecimal now

/-- The freshly initialized session record persisted before any provider
call: status provisioning, no url, no sandboxId. -/
def initSession (p : CreateParams) (now : Int) : SandboxSession :=
  { id := freshSessionId p.sessionId now
    sessionId := p.sessionId
    owner := p.owner
    repo := p.repo
    branch := p.branch
    status := .provisioning
    url := none
    sandboxId := none
    createdAt := now
    errorMessage := none }

/-- The exposed preview URL: only attempted when ENVIRONMENT is production
and WORKER_HOSTNAME is set; an exposePort failure is caught and leaves the
URL null. -/
def exposedUrlOf (isProduction hasWorkerHostname : Bool)
    (exposeOutcome : Except Str Str) : Option Str :=
  if isProduction && hasWorkerHostname then
    match exposeOutcome with
    | .ok u => some u
    | .error _ => none
  else none

/-- The session projection returned by the create path. -/
def sessionProj (s : SandboxSession) : CreateRespBody :=
  .proj s.id s.url s.status s.createdAt

/-- The fresh-provisioning tail of cloudflare-service
SandboxManager.createSandbox: initialize and persist the record; without
the Sandbox binding mark it error and answer 503; otherwise walk
cloning, starting, expose the port, and answer 200 ready. -/
def cfProvision (env : CfEnv) (now : Int) (p : CreateParams) :
    Option SandboxSession × CreateResp :=
  let s1 := initSession p now
  if env.sandboxAvailable = false then
    let s2 := { s1 with
      status := SessStatus.error
      errorMessage := some (("Sandbox SDK only works in production.").data) }
    (some s2, ⟨503, .sdkUnavailable s2.id s2.status s2.createdAt⟩)
  else
    let s2 := { s1 with status := SessStatus.cloning, sandboxId := some s1.id }
    let s3 := { s2 with status := SessStatus.starting }
    let s4 := { s3 with
      url := exposedUrlOf env.isProduction env.hasWorkerHostname env.exposeOutcome
      status := SessStatus.ready }
    (some s4, ⟨200, sessionProj s4⟩)

/-- cloudflare-service SandboxManager.createSandbox: a stored session whose
status is neither error nor terminated is answered unchanged with 200;
otherwise a fresh provisioning starts. -/
def cfCreateSandbox (env : CfEnv) (now : Int) (p : CreateParams)
    (session0 : Option SandboxSession) : Option SandboxSession × CreateResp :=
  match session0 with
  | some s =>
    if s.status ≠ SessStatus.error ∧ s.status ≠ SessStatus.terminated then
      (some s, ⟨200, sessionProj s⟩)
    else cfProvision env now p
  | none => cfProvision env now p

/-- The worker route for POST /sandbox/create: it awaits the Durable
Object response, parses its JSON body, and returns that body in a new
response whose status is the literal 200. -/
def workerCreateRoute (doResp : CreateResp) : CreateResp :=
  { status := 200, body := doResp.body }

/-- Predicate on the stored session under which createSandbox starts a
fresh provisioning: absent, or in a terminal error / terminated state. -/
def sessionAllowsFresh : Option SandboxSession → Prop
  | none => True
  | some s => s.status = SessStatus.error ∨ s.status = SessStatus.terminated

/-- Environment of the my-sandbox create flow: the git clone outcome, the
OpenCode install outcome, the readiness poll oracle (attempt number to
whether an HTTP status was observed), and the port-exposure context. -/
structure MsEnv where
  cloneOk : Bool
  cloneOut : Str
  installOk : Bool
  healthChecks : Nat → Bool
  isProduction : Bool
  hasWorkerHostname : Bool
  exposeOutcome : Except Str Str

/-- The bounded readiness poll of my-sandbox createSandbox: fifteen
attempts at one-second intervals; serverReady is set when some attempt
observes an HTTP status code. -/
def pollReady (health : Nat → Bool) : Bool := (List.range 15).any health

/-- The my-sandbox createSandbox body after the session record was
initialized: set cloning plus sandboxId, throw if the clone failed, then
(install failure only logs) poll readiness, expose the port, and finish
ready with the best-effort URL.  The returned Bool is the serverReady flag
whose falsity is only logged. -/
def msCreateAfterInit (env : MsEnv) (s1 : SandboxSession) :
    Except Str (SandboxSession × Bool) :=
  let s2 := { s1 with status := SessStatus.cloning, sandboxId := some s1.id }
  if env.cloneOk = false then
    Except.error (("Failed to clone repository: ").data ++ env.cloneOut)
  else
    let s3 := { s2 with status := SessStatus.starting }
    let ready := pollReady env.healthChecks
    let s4 := { s3 with
      url := exposedUrlOf env.isProduction env.hasWorkerHostname env.exposeOutcome
      status := SessStatus.ready }
    Except.ok (s4, ready)

/-- DaytonaProvider.waitForServerReady: up to maxAttempts fetches of
url/docs; an ok response returns early; exhausting the attempts falls off
the loop and returns as well, because the failure throw is commented out.
The Bool records whether a ready response was observed. -/
def waitForServerReady (respOk : Nat → Bool) (maxAttempts : Nat) :
    Except Str Bool :=
  if (List.range maxAttempts).any respOk then Except.ok true
  else Except.ok false

/-- SandboxManager.terminateSandbox past its guard: sandbox.destroy is
called and any failure is caught and logged, then the session is marked
terminated and its url cleared.  The destroy outcome does not influence
the result. -/
def terminateSandboxCf (destroyOutcome : Except Str Unit)
    (s : SandboxSession) : SandboxSession :=
  let _destroyLogged := destroyOutcome
  { s with status := SessStatus.terminated, url := none }

/-- Observable outcome of the DELETE branch of SandboxManager.fetch: the
stored session afterwards, the HTTP status, and how many times the
provider adapter destroy was invoked. -/
structure DeleteOutcome where
  session : Option SandboxSession
  httpStatus : Nat
  adapterCalls : Nat
deriving DecidableEq

/-- The DELETE branch of SandboxManager.fetch: answer 204 directly when
there is no session or it has no sandboxId; otherwise run
terminateSandbox (destroy failures swallowed) and answer 204. -/
def doDeleteCf (destroyOutcome : Except Str Unit)
    (session0 : Option SandboxSession) : DeleteOutcome :=
  match session0 with
  | none => ⟨none, 204, 0⟩
  | some s =>
    match s.sandboxId with
    | none => ⟨some s, 204, 0⟩
    | some _ => ⟨some (terminateSandboxCf destroyOutcome s), 204, 1⟩

/-- DockerProvider.terminate: docker stop and docker rm -f are each run in
their own try block whose failures are only logged, so the call never
raises. -/
def dockerTerminate (stopOutcome rmOutcome : Except Str Unit) :
    Except Str Unit :=
  let _stopLogged := stopOutcome
  let _rmLogged := rmOutcome
  Except.ok ()

/-- DaytonaProvider.terminate: daytona.get, daytona.stop and
daytona.delete run in one try block whose catch rethrows a wrapped Error,
so any failure, including an absent workspace, raises. -/
def daytonaTerminate (getOutcome stopOutcome deleteOutcome :
    Except Str Unit) : Except Str Unit :=
  match getOutcome with
  | .error e =>
    Except.error (("Failed to terminate Daytona workspace: ").data ++ e)
  | .ok _ =>
    match stopOutcome with
    | .error e =>
      Except.error (("Failed to terminate Daytona workspace: ").data ++ e)
    | .ok _ =>
      match deleteOutcome with
      | .error e =>
        Except.error (("Failed to terminate Daytona workspace: ").data ++ e)
      | .ok _ => Except.ok ()

/-- A concrete provider resolution oracle used in concrete instances. -/
def demoResolve : Str → Int → Str := fun _ _ => ("https://resolved.example").data

/-- Concrete create parameters used in concrete instances. -/
def demoParams : CreateParams :=
  ⟨("octo").data, ("hello").data, ("main").data, ("sess").data, none⟩

/-- A deployment in which everything is available. -/
def demoEnv : CfEnv :=
  ⟨true, true, true, Except.ok (("https://4096-sb.example").data)⟩

/-- A deployment without the Sandbox binding. -/
def demoNoBindingEnv : CfEnv := ⟨false, false, false, Except.error []⟩

/-- A stored session that is already ready. -/
def demoReadySession : SandboxSession :=
  { id := ("old-id").data
    sessionId := ("sess").data
    owner := ("octo").data
    repo := ("hello").data
    branch := ("main").data
    status := SessStatus.ready
    url := some (("https://old.example").data)
    sandboxId := some (("old-id").data)
    createdAt := 1
    errorMessage := none }

/-- A stored session that was already terminated but keeps its sandboxId. -/
def demoTerminatedSession : SandboxSession :=
  { demoReadySession with status := SessStatus.terminated }

/-- A stored session still in flight (cloning). -/
def demoCloningSession : SandboxSession :=
  { demoReadySession with status := SessStatus.cloning }

/-- A my-sandbox environment whose readiness poll never succeeds. -/
def demoMsEnv : MsEnv :=
  { cloneOk := true
    cloneOut := []
    installOk := true
    healthChecks := fun _ => false
    isProduction := true
    hasWorkerHostname := true
    exposeOutcome := Except.ok (("https://ms.example").data) }

/-- A concrete freshly initialized session record. -/
def demoInitSession : SandboxSession := initSession demoParams 3

/-- A concrete cache entry written at tick 10. -/
def demoEntry : CacheEntry := ⟨("https://cached.example").data, 10⟩

/-- A concrete cache holding demoEntry under the key of sandbox abc port
4096. -/
def demoCache : Cache := [(previewKey (("abc").data) 4096, demoEntry)]

/-! Helper lemmas about the string machinery. -/

theorem splitCh_nil (c : Char) : splitCh c [] = [[]] := rfl

theorem splitCh_cons (c x : Char) (xs : Str) :
    splitCh c (x :: xs) =
      if x = c then [] :: splitCh c xs
      else (x :: (splitCh c xs).headI) :: (splitCh c xs).tail := rfl

theorem splitCh_ne_nil (c : Char) (l : Str) : splitCh c l ≠ [] := by
  induction l with
  | nil => simp [splitCh_nil]
  | cons x xs ih =>
    rw [splitCh_cons]
    by_cases hx : x = c <;> simp [hx]

theorem joinCh_cons_cons (c : Char) (x y : Str) (rest : List Str) :
    joinCh c (x :: y :: rest) = x ++ c :: joinCh c (y :: rest) := rfl

theorem joinCh_splitCh (c : Char) (l : Str) : joinCh c (splitCh c l) = l := by
  induction l with
  | nil => rfl
  | cons x xs ih =>
    rw [splitCh_cons]
    obtain ⟨h, t, ht⟩ : ∃ h t, splitCh c xs = h :: t := by
      cases hs : splitCh c xs with
      | nil => exact absurd hs (splitCh_ne_nil c xs)
      | cons h t => exact ⟨h, t, rfl⟩
    by_cases hx : x = c
    · subst hx
      rw [if_pos rfl, ht, joinCh_cons_cons]
      rw [ht] at ih
      simpa using ih
    · rw [if_neg hx, ht]
      simp only [List.headI, List.tail]
      rw [ht] at ih
      cases t with
      | nil => simpa [joinCh] using congrArg (x :: ·) ih
      | cons y t2 =>
        rw [joinCh_cons_cons] at ih ⊢
        simpa using congrArg (x :: ·) ih

theorem containsCh_nil (c : Char) : containsCh c [] = false := rfl

theorem containsCh_cons (c x : Char) (xs : Str) :
    containsCh c (x :: xs) = (decide (x = c) || containsCh c xs) := by
  simp [containsCh]

theorem splitCh_of_not_contains {c : Char} {l : Str}
    (h : containsCh c l = false) : splitCh c l = [l] := by
  induction l with
  | nil => rfl
  | cons x xs ih =>
    rw [containsCh_cons] at h
    simp only [Bool.or_eq_false_iff, decide_eq_false_iff_not] at h
    rw [splitCh_cons, if_neg h.1, ih h.2]
    rfl

theorem splitCh_append_sep {c : Char} {a : Str} (b : Str)
    (h : containsCh c a = false) : splitCh c (a ++ c :: b) = a :: splitCh c b := by
  induction a with
  | nil => simp [splitCh_cons]
  | cons x a2 ih =>
    rw [containsCh_cons] at h
    simp only [Bool.or_eq_false_iff, decide_eq_false_iff_not] at h
    rw [List.cons_append, splitCh_cons, if_neg h.1, ih h.2]
    rfl

theorem isDig_ne {c : Char} (h : isDig c = true) {d : Char}
    (hd : isDig d = false) : c ≠ d := by
  intro he
  rw [he, hd] at h
  exact Bool.noConfusion h

theorem isJsSpace_of_isDig {c : Char} (h : isDig c = true) :
    isJsSpace c = false := by
  have h1 : c ≠ ' ' := isDig_ne h (by decide)
  have h2 : c ≠ '\t' := isDig_ne h (by decide)
  have h3 : c ≠ '\n' := isDig_ne h (by decide)
  have h4 : c ≠ '\r' := isDig_ne h (by decide)
  simp [isJsSpace, h1, h2, h3, h4]

theorem takeWhile_of_all {p : Char → Bool} {l : Str} (h : l.all p = true) :
    l.takeWhile p = l := by
  induction l with
  | nil => rfl
  | cons x xs ih =>
    simp only [List.all_cons, Bool.and_eq_true] at h
    simp [List.takeWhile_cons, h.1, ih h.2]

theorem isDig_digitCh {d : Nat} (h : d < 10) : isDig (digitCh d) = true := by
  interval_cases d <;> decide

theorem digitVal_digitCh {d : Nat} (h : d < 10) : digitVal (digitCh d) = d := by
  interval_cases d <;> decide

theorem digitsVal_append_single (l : Str) (c : Char) :
    digitsVal (l ++ [c]) = 10 * digitsVal l + digitVal c := by
  simp [digitsVal, List.foldl_append]

theorem natDecimalAux_spec :
    ∀ fuel n, n < fuel →
      natDecimalAux fuel n ≠ [] ∧ (natDecimalAux fuel n).all isDig = true ∧
        digitsVal (natDecimalAux fuel n) = n := by
  intro fuel
  induction fuel with
  | zero => intro n h; omega
  | succ f ih =>
    intro n h
    by_cases h10 : n < 10
    · refine ⟨by simp [natDecimalAux, h10], ?_, ?_⟩
      · simp [natDecimalAux, h10, isDig_digitCh h10]
      · simp [natDecimalAux, h10, digitsVal, digitVal_digitCh h10]
    · have hlt : n / 10 < n := Nat.div_lt_self (by omega) (by omega)
      have hrec : n / 10 < f := by omega
      obtain ⟨hne, hall, hval⟩ := ih (n / 10) hrec
      have hmod : n % 10 < 10 := Nat.mod_lt n (by omega)
      refine ⟨by simp [natDecimalAux, h10], ?_, ?_⟩
      · simp [natDecimalAux, h10, List.all_append, hall, isDig_digitCh hmod]
      · rw [show natDecimalAux (f + 1) n
            = natDecimalAux f (n / 10) ++ [digitCh (n % 10)] by
              simp [natDecimalAux, h10]]
        rw [digitsVal_append_single, hval, digitVal_digitCh hmod]
        omega

theorem natDecimal_spec (n : Nat) :
    natDecimal n ≠ [] ∧ (natDecimal n).all isDig = true ∧
      digitsVal (natDecimal n) = n :=
  natDecimalAux_spec (n + 1) n (Nat.lt_succ_self n)

theorem parseIntJS_of_all_isDig {l : Str} (hne : l ≠ [])
    (hall : l.all isDig = true) : parseIntJS l = some ((digitsVal l : Nat) : Int) := by
  obtain ⟨d, rest, rfl⟩ := List.exists_cons_of_ne_nil hne
  have hd : isDig d = true := by
    simp only [List.all_cons, Bool.and_eq_true] at hall
    exact hall.1
  unfold parseIntJS
  rw [List.dropWhile_cons, isJsSpace_of_isDig hd]
  simp only [Bool.false_eq_true, if_false]
  rw [if_neg (isDig_ne hd (by decide)), if_neg (isDig_ne hd (by decide))]
  unfold parseDigits
  rw [takeWhile_of_all hall]
  simp

theorem parseIntJS_natDecimal (n : Nat) :
    parseIntJS (natDecimal n) = some (n : Int) := by
  obtain ⟨hne, hall, hval⟩ := natDecimal_spec n
  rw [parseIntJS_of_all_isDig hne hall, hval]

theorem not_containsCh_of_all_isDig {l : Str} {c : Char}
    (hc : isDig c = false) (h : l.all isDig = true) : containsCh c l = false := by
  induction l with
  | nil => rfl
  | cons x xs ih =>
    simp only [List.all_cons, Bool.and_eq_true] at h
    rw [containsCh_cons, ih h.2, Bool.or_false, decide_eq_false_iff_not]
    exact isDig_ne h.1 hc

theorem containsCh_append (c : Char) (a b : Str) :
    containsCh c (a ++ b) = (containsCh c a || containsCh c b) := by
  simp [containsCh]

theorem parseSandboxInfoL_isOk_iff (host : Str) :
    exceptIsOk (parseSandboxInfoL host) = false ↔ routingErrorSpec host := by
  simp only [parseSandboxInfoL, routingErrorSpec]
  by_cases h1 : (splitCh '.' host).length < 2
  · simp [h1, exceptIsOk]
  · rw [if_neg h1]
    by_cases h2 : (splitCh '.' host).headI = ([] : Str)
    · rw [if_pos h2, h2]
      simp [exceptIsOk, splitCh_nil, h1]
    · rw [if_neg h2]
      by_cases h3 : (splitCh '-' (splitCh '.' host).headI).length < 2
      · simp [h3, exceptIsOk, h1]
      · rw [if_neg h3]
        by_cases h4 : (splitCh '-' (splitCh '.' host).headI).headI = ([] : Str)
        · rw [if_pos h4]
          rw [h4]
          simp [exceptIsOk, h1, h3, parseIntJS]
        · rw [if_neg h4]
          cases hp : parseIntJS (splitCh '-' (splitCh '.' host).headI).headI with
          | none => simp [exceptIsOk, h1, h3, hp]
          | some p => simp [exceptIsOk, h1, h3, hp]

/-! Claim theorems. -/

/-- C4: parseSandboxInfo decodes host 4096-abc123def.example.com to port
4096 and sandbox id abc123def; it raises a routing error exactly when the
host has fewer than two dot-separated parts, the leftmost label has fewer
than two hyphen chunks (as for example.com and xyz.example.com), or JS
parseInt yields NaN on the port chunk; and a request whose host fails to
decode is never forwarded upstream. -/
theorem c4_address_decode :
    parseSandboxInfoL (("4096-abc123def.example.com").data)
        = Except.ok ⟨("abc123def").data, 4096⟩
    ∧ exceptIsOk (parseSandboxInfoL (("example.com").data)) = false
    ∧ exceptIsOk (parseSandboxInfoL (("xyz.example.com").data)) = false
    ∧ (∀ host : Str,
        exceptIsOk (parseSandboxInfoL host) = false ↔ routingErrorSpec host)
    ∧ (∀ resolve ttl cache now host,
        exceptIsOk (parseSandboxInfoL host) = false →
        ∀ u c2, routeRequest resolve ttl cache now (some host)
          ≠ (ForwardDecision.forward u, c2)) := by
  refine ⟨by decide, by decide, by decide, parseSandboxInfoL_isOk_iff, ?_⟩
  intro resolve ttl cache now host h u c2
  unfold routeRequest
  cases hp : parseSandboxInfoL host with
  | error e => simp [hp]
  | ok info =>
    rw [hp] at h
    simp [exceptIsOk] at h

/-- C4 witness: at the concrete undecodable host nodothost the
characterization and the never-forwarded property hold. -/
theorem c4_witness :
    (exceptIsOk (parseSandboxInfoL (("nodothost").data)) = false
      ↔ routingErrorSpec (("nodothost").data))
    ∧ ∀ u c2, routeRequest demoResolve 300000 [] 0 (some (("nodothost").data))
        ≠ (ForwardDecision.forward u, c2) :=
  ⟨c4_address_decode.2.2.2.1 (("nodothost").data),
   c4_address_decode.2.2.2.2 demoResolve 300000 [] 0 (("nodothost").data)
     (by decide)⟩

/-- C10 counterexample: for port 1, identifier a.b and domain c the claim
predicts decoding back to a.b, but the code splits the host on every dot,
so the decoded sandbox id is a. -/
theorem c10_counterexample :
    parseSandboxInfoL (("1-a.b.c").data) = Except.ok ⟨("a").data, 1⟩
    ∧ ("a").data ≠ ("a.b").data := by
  refine ⟨by decide, by decide⟩

/-- C10 amended: decode is a left inverse of address formation for every
numeric port, every non-empty identifier that contains no dot (hyphens
allowed), and every non-empty domain suffix. -/
theorem c10_amended (p : Nat) (id dom : Str) (_hid : id ≠ [])
    (_hdom : dom ≠ []) (hdot : containsCh '.' id = false) :
    parseSandboxInfoL (natDecimal p ++ '-' :: (id ++ '.' :: dom))
      = Except.ok ⟨id, (p : Int)⟩ := by
  have hdig : (natDecimal p).all isDig = true := (natDecimal_spec p).2.1
  have hne : natDecimal p ≠ [] := (natDecimal_spec p).1
  have hnd_dot : containsCh '.' (natDecimal p) = false :=
    not_containsCh_of_all_isDig (by decide) hdig
  have hnd_dash : containsCh '-' (natDecimal p) = false :=
    not_containsCh_of_all_isDig (by decide) hdig
  have hassoc : natDecimal p ++ '-' :: (id ++ '.' :: dom)
      = (natDecimal p ++ '-' :: id) ++ '.' :: dom := by simp
  rw [hassoc]
  have ha_dot : containsCh '.' (natDecimal p ++ '-' :: id) = false := by
    rw [containsCh_append, hnd_dot, containsCh_cons, hdot]
    decide
  have hsplit1 : splitCh '.' ((natDecimal p ++ '-' :: id) ++ '.' :: dom)
      = (natDecimal p ++ '-' :: id) :: splitCh '.' dom :=
    splitCh_append_sep dom ha_dot
  have hsplit2 : splitCh '-' (natDecimal p ++ '-' :: id)
      = natDecimal p :: splitCh '-' id :=
    splitCh_append_sep id hnd_dash
  simp only [parseSandboxInfoL]
  rw [hsplit1]
  have hlen1 : ¬ (((natDecimal p ++ '-' :: id) :: splitCh '.' dom).length < 2) := by
    have h := splitCh_ne_nil '.' dom
    cases hs : splitCh '.' dom with
    | nil => exact absurd hs h
    | cons a b => simp [hs]
  rw [if_neg hlen1]
  simp only [List.headI]
  have hane : ¬ (natDecimal p ++ '-' :: id = ([] : Str)) := by
    cases natDecimal p <;> simp
  rw [if_neg hane, hsplit2]
  have hlen2 : ¬ ((natDecimal p :: splitCh '-' id).length < 2) := by
    have h := splitCh_ne_nil '-' id
    cases hs : splitCh '-' id with
    | nil => exact absurd hs h
    | cons a b => simp [hs]
  rw [if_neg hlen2]
  simp only [List.headI]
  rw [if_neg hne, parseIntJS_natDecimal]
  simp only [List.drop_succ_cons, List.drop_zero]
  rw [joinCh_splitCh]

/-- C10 witness: the amended left-inverse law at port 8080, hyphenated
identifier my-box-7 and domain example.com. -/
theorem c10_witness :
    parseSandboxInfoL (natDecimal 8080
        ++ '-' :: ((("my-box-7").data) ++ '.' :: (("example.com").data)))
      = Except.ok ⟨("my-box-7").data, (8080 : Int)⟩ :=
  c10_amended 8080 (("my-box-7").data) (("example.com").data)
    (by decide) (by decide) (by decide)

/-- C5 counterexample: the regex of restoreUuidFormat carries the i flag,
so the 32 uppercase hex characters of this identifier are regrouped
8-4-4-4-12 although the claim requires any non-lowercase input to pass
through unchanged. -/
theorem c5_counterexample :
    restoreUuidFormatL (("9CBB20F460984CD6BA1CDAF96C2FF9B3").data)
        = ("9CBB20F4-6098-4CD6-BA1C-DAF96C2FF9B3").data
    ∧ ("9CBB20F4-6098-4CD6-BA1C-DAF96C2FF9B3").data
        ≠ ("9CBB20F460984CD6BA1CDAF96C2FF9B3").data := by
  refine ⟨by decide, by decide⟩

/-- C5 amended: identifier normalization maps every hyphen-free
32-character hexadecimal identifier of either letter case to the canonical
8-4-4-4-12 grouping (in particular the documented lowercase example), and
returns every other input, any string containing a hyphen and any
hyphen-free string that is not 32 hex characters, unchanged. -/
theorem c5_amended (s : Str) :
    restoreUuidFormatL (("9cbb20f460984cd6ba1cdaf96c2ff9b3").data)
        = ("9cbb20f4-6098-4cd6-ba1c-daf96c2ff9b3").data
    ∧ (containsCh '-' s = true → restoreUuidFormatL s = s)
    ∧ (containsCh '-' s = false →
        ((s.length == 32) && s.all isHexCI) = true →
        restoreUuidFormatL s = uuidGroups s)
    ∧ (containsCh '-' s = false →
        ((s.length == 32) && s.all isHexCI) = false →
        restoreUuidFormatL s = s) := by
  refine ⟨by decide, ?_, ?_, ?_⟩
  · intro h
    simp [restoreUuidFormatL, h]
  · intro h hx
    simp [restoreUuidFormatL, h, hx]
  · intro h hx
    simp [restoreUuidFormatL, h, hx]

/-- C5 witness: the lowercase documented example maps to its grouping and
a short non-hex string passes through unchanged. -/
theorem c5_witness :
    restoreUuidFormatL (("9cbb20f460984cd6ba1cdaf96c2ff9b3").data)
        = ("9cbb20f4-6098-4cd6-ba1c-daf96c2ff9b3").data
    ∧ restoreUuidFormatL (("zzz").data) = ("zzz").data :=
  ⟨(c5_amended []).1,
   (c5_amended (("zzz").data)).2.2.2 (by decide) (by decide)⟩

/-- C3: a getPreviewUrl read strictly within the TTL of the stored entry
returns the identical cached URL with no provider call and the cache
untouched; a read on a missing or on an at-or-past-TTL entry performs
exactly one provider resolution, stores the result under the key with the
current timestamp and returns it; and a read that made no provider call
served an entry strictly younger than the TTL. -/
theorem c3_cache (resolve : Str → Int → Str) (ttl : Int) (cache : Cache)
    (now : Int) (sandboxId : Str) (port : Int) :
    (∀ e, cacheLookup (previewKey sandboxId port) cache = some e →
        now - e.timestamp < ttl →
        getPreviewUrl resolve ttl cache now sandboxId port = ⟨e.url, cache, 0⟩)
    ∧ (cacheLookup (previewKey sandboxId port) cache = none →
        getPreviewUrl resolve ttl cache now sandboxId port
          = ⟨resolve (restoreUuidFormatL sandboxId) port,
             cacheInsert (previewKey sandboxId port)
               ⟨resolve (restoreUuidFormatL sandboxId) port, now⟩ cache, 1⟩)
    ∧ (∀ e, cacheLookup (previewKey sandboxId port) cache = some e →
        ttl ≤ now - e.timestamp →
        getPreviewUrl resolve ttl cache now sandboxId port
          = ⟨resolve (restoreUuidFormatL sandboxId) port,
             cacheInsert (previewKey sandboxId port)
               ⟨resolve (restoreUuidFormatL sandboxId) port, now⟩ cache, 1⟩)
    ∧ ((getPreviewUrl resolve ttl cache now sandboxId port).providerCalls = 0 →
        ∃ e, cacheLookup (previewKey sandboxId port) cache = some e
          ∧ now - e.timestamp < ttl
          ∧ (getPreviewUrl resolve ttl cache now sandboxId port).url = e.url) := by
  refine ⟨?_, ?_, ?_, ?_⟩
  · intro e he hage
    simp [getPreviewUrl, he, hage]
  · intro hnone
    simp [getPreviewUrl, hnone]
  · intro e he hage
    simp [getPreviewUrl, he, not_lt.mpr hage]
  · intro hcalls
    cases he : cacheLookup (previewKey sandboxId port) cache with
    | none =>
      exfalso
      have hmiss : getPreviewUrl resolve ttl cache now sandboxId port
          = ⟨resolve (restoreUuidFormatL sandboxId) port,
             cacheInsert (previewKey sandboxId port)
               ⟨resolve (restoreUuidFormatL sandboxId) port, now⟩ cache, 1⟩ := by
        simp [getPreviewUrl, he]
      rw [hmiss] at hcalls
      simp at hcalls
    | some e =>
      by_cases hage : now - e.timestamp < ttl
      · have hhit : getPreviewUrl resolve ttl cache now sandboxId port
            = ⟨e.url, cache, 0⟩ := by
          simp [getPreviewUrl, he, hage]
        exact ⟨e, rfl, hage, by rw [hhit]⟩
      · exfalso
        have hmiss : getPreviewUrl resolve ttl cache now sandboxId port
            = ⟨resolve (restoreUuidFormatL sandboxId) port,
               cacheInsert (previewKey sandboxId port)
                 ⟨resolve (restoreUuidFormatL sandboxId) port, now⟩ cache, 1⟩ := by
          simp [getPreviewUrl, he, hage]
        rw [hmiss] at hcalls
        simp at hcalls

/-- C3 witness: with the demo cache written at tick 10 and a read at tick
20, the cached URL is served with no provider call. -/
theorem c3_witness :
    getPreviewUrl demoResolve 300000 demoCache 20 (("abc").data) 4096
      = ⟨demoEntry.url, demoCache, 0⟩ :=
  (c3_cache demoResolve 300000 demoCache 20 (("abc").data) 4096).1
    demoEntry (by decide) (by decide)

/-- C1 counterexample: a stored session in status ready is returned
unchanged by createSandbox (no fresh provisioning, same record), while a
stored terminated session is not returned unchanged; the claim demands
the opposite on both inputs. -/
theorem c1_counterexample :
    cfCreateSandbox demoEnv 5 demoParams (some demoReadySession)
      = (some demoReadySession,
         ⟨200, CreateRespBody.proj (("old-id").data)
            (some (("https://old.example").data)) SessStatus.ready 1⟩)
    ∧ (cfCreateSandbox demoEnv 5 demoParams (some demoTerminatedSession)).1
        ≠ some demoTerminatedSession := by
  refine ⟨by decide, by decide⟩

/-- C1 amended: error and terminated are the only existing-session states
from which createSandbox starts a new creation (fresh record with the new
instance identifier sb-sessionId-now created at now); in every other
non-absent state the in-flight session record is returned unchanged, with
the same id, url, status and createdAt. -/
theorem c1_amended (env : CfEnv) (now : Int) (p : CreateParams)
    (s : SandboxSession) :
    (s.status ≠ SessStatus.error ∧ s.status ≠ SessStatus.terminated →
      cfCreateSandbox env now p (some s)
        = (some s, ⟨200, CreateRespBody.proj s.id s.url s.status s.createdAt⟩))
    ∧ ((s.status = SessStatus.error ∨ s.status = SessStatus.terminated) →
      cfCreateSandbox env now p (some s) = cfProvision env now p
      ∧ ∀ s2, (cfProvision env now p).1 = some s2 →
          s2.id = freshSessionId p.sessionId now ∧ s2.createdAt = now) := by
  constructor
  · intro h
    simp [cfCreateSandbox, h, sessionProj]
  · intro h
    have hno : ¬ (s.status ≠ SessStatus.error ∧ s.status ≠ SessStatus.terminated) := by
      rcases h with h | h <;> simp [h]
    constructor
    · simp [cfCreateSandbox, hno]
    · intro s2 hs2
      cases hA : env.sandboxAvailable with
      | false =>
        simp [cfProvision, hA, initSession] at hs2
        rw [← hs2]
        exact ⟨rfl, rfl⟩
      | true =>
        simp [cfProvision, hA, initSession] at hs2
        rw [← hs2]
        exact ⟨rfl, rfl⟩

/-- C1 witness: a stored cloning session is served unchanged. -/
theorem c1_witness :
    cfCreateSandbox demoEnv 7 demoParams (some demoCloningSession)
      = (some demoCloningSession,
         ⟨200, CreateRespBody.proj demoCloningSession.id demoCloningSession.url
            demoCloningSession.status demoCloningSession.createdAt⟩) :=
  (c1_amended demoEnv 7 demoParams demoCloningSession).1 (by decide)

/-- C6 counterexample: with no Sandbox binding, the worker route for
POST /sandbox/create returns status 200 (with the error body), not the
503 the claim requires the caller to see. -/
theorem c6_counterexample :
    (workerCreateRoute (cfCreateSandbox demoNoBindingEnv 5 demoParams none).2).status
        = 200
    ∧ (workerCreateRoute (cfCreateSandbox demoNoBindingEnv 5 demoParams none).2).status
        ≠ 503 := by
  refine ⟨by decide, by decide⟩

/-- C6 amended: when the Sandbox binding is absent the Durable Object
createSandbox answers 503, but the worker /sandbox/create route re-wraps
that JSON body in a fresh 200 response, so the external caller receives
200; a successful creation answers 200 with the id, url, status and
createdAt projection. -/
theorem c6_amended (env : CfEnv) (now : Int) (p : CreateParams)
    (session0 : Option SandboxSession) (hfresh : sessionAllowsFresh session0) :
    (env.sandboxAvailable = false →
      (cfCreateSandbox env now p session0).2.status = 503
      ∧ (workerCreateRoute (cfCreateSandbox env now p session0).2).status = 200
      ∧ (workerCreateRoute (cfCreateSandbox env now p session0).2).body
          = (cfCreateSandbox env now p session0).2.body)
    ∧ (env.sandboxAvailable = true →
      (cfCreateSandbox env now p session0).2
        = ⟨200, CreateRespBody.proj (freshSessionId p.sessionId now)
            (exposedUrlOf env.isProduction env.hasWorkerHostname env.exposeOutcome)
            SessStatus.ready now⟩) := by
  have hprov : cfCreateSandbox env now p session0 = cfProvision env now p := by
    cases session0 with
    | none => rfl
    | some s =>
      have hno : ¬ (s.status ≠ SessStatus.error ∧ s.status ≠ SessStatus.terminated) := by
        rcases hfresh with h | h <;> simp [h]
      simp [cfCreateSandbox, hno]
  rw [hprov]
  constructor
  · intro hA
    simp [cfProvision, hA, workerCreateRoute]
  · intro hA
    simp [cfProvision, hA, sessionProj, initSession]

/-- C6 witness: concrete no-binding deployment with no stored session:
the Durable Object answers 503 and the worker route answers 200 with the
same body. -/
theorem c6_witness :
    (cfCreateSandbox demoNoBindingEnv 5 demoParams none).2.status = 503
    ∧ (workerCreateRoute (cfCreateSandbox demoNoBindingEnv 5 demoParams none).2).status
        = 200
    ∧ (workerCreateRoute (cfCreateSandbox demoNoBindingEnv 5 demoParams none).2).body
        = (cfCreateSandbox demoNoBindingEnv 5 demoParams none).2.body :=
  (c6_amended demoNoBindingEnv 5 demoParams none trivial).1 rfl

/-- C2: when the clone succeeded and all fifteen readiness attempts fail,
the my-sandbox create flow still finishes with an ok result in status
ready carrying the best-effort (possibly null) exposed URL, and the
Daytona waitForServerReady returns normally after exhausting its five
attempts: neither poll-exhaustion path throws or reaches error. -/
theorem c2_poll_exhaustion (env : MsEnv) (s1 : SandboxSession)
    (hclone : env.cloneOk = true)
    (hpoll : ∀ i, i < 15 → env.healthChecks i = false) :
    (∃ s, msCreateAfterInit env s1 = Except.ok (s, false)
      ∧ s.status = SessStatus.ready
      ∧ s.url = exposedUrlOf env.isProduction env.hasWorkerHostname
          env.exposeOutcome)
    ∧ (∀ respOk : Nat → Bool, (∀ i, i < 5 → respOk i = false) →
        waitForServerReady respOk 5 = Except.ok false) := by
  constructor
  · have hpr : pollReady env.healthChecks = false := by
      rw [pollReady]
      cases h : (List.range 15).any env.healthChecks with
      | false => rfl
      | true =>
        exfalso
        rw [List.any_eq_true] at h
        obtain ⟨x, hx, hpx⟩ := h
        rw [List.mem_range] at hx
        rw [hpoll x hx] at hpx
        exact Bool.noConfusion hpx
    refine Exists.intro ({ s1 with status := SessStatus.ready, sandboxId := some s1.id, url := exposedUrlOf env.isProduction env.hasWorkerHostname env.exposeOutcome }) ⟨?_, rfl, rfl⟩
    simp [msCreateAfterInit, hclone, hpr]
  · intro respOk hr
    have hno : (List.range 5).any respOk = false := by
      cases h : (List.range 5).any respOk with
      | false => rfl
      | true =>
        exfalso
        rw [List.any_eq_true] at h
        obtain ⟨x, hx, hpx⟩ := h
        rw [List.mem_range] at hx
        rw [hr x hx] at hpx
        exact Bool.noConfusion hpx
    simp [waitForServerReady, hno]

/-- C2 witness: the demo environment whose poll never succeeds finishes
ready without throwing. -/
theorem c2_witness :
    (∃ s, msCreateAfterInit demoMsEnv demoInitSession = Except.ok (s, false)
      ∧ s.status = SessStatus.ready
      ∧ s.url = exposedUrlOf demoMsEnv.isProduction demoMsEnv.hasWorkerHostname
          demoMsEnv.exposeOutcome)
    ∧ (∀ respOk : Nat → Bool, (∀ i, i < 5 → respOk i = false) →
        waitForServerReady respOk 5 = Except.ok false) :=
  c2_poll_exhaustion demoMsEnv demoInitSession rfl (fun _ _ => rfl)

/-- C7 counterexample: the proxy reports a routing error with status 500,
which is not a 4xx client status as the claim requires. -/
theorem c7_counterexample :
    (onProxyError (some (("Invalid host format").data))).1 = 500
    ∧ ¬(400 ≤ (onProxyError (some (("Invalid host format").data))).1
        ∧ (onProxyError (some (("Invalid host format").data))).1 < 500) := by
  refine ⟨rfl, by decide⟩

/-- C7 amended: every proxy-local failure produces a structured JSON error
body whose kind field distinguishes a routing error, reported with status
500 and kind ProxyError, from an upstream connection failure after a
successful decode, reported with status 502 and kind BadGateway. -/
theorem c7_amended (m : Str) :
    onProxyError (some m) = (500, ⟨("ProxyError").data, m⟩)
    ∧ onProxyError none
        = (502, ⟨("BadGateway").data, ("Failed to connect to sandbox").data⟩)
    ∧ ("ProxyError").data ≠ ("BadGateway").data := by
  refine ⟨rfl, rfl, by decide⟩

/-- C8 counterexample: deleting a session that is already terminated but
still carries its sandboxId invokes the provider adapter destroy again
(one call, not the no-op the claim requires), though it still answers
204. -/
theorem c8_counterexample :
    demoTerminatedSession.status = SessStatus.terminated
    ∧ (doDeleteCf (Except.ok ()) (some demoTerminatedSession)).adapterCalls = 1
    ∧ (doDeleteCf (Except.ok ()) (some demoTerminatedSession)).httpStatus = 204 := by
  refine ⟨by decide, by decide, by decide⟩

/-- C8 amended: DELETE answers 204 on every call and never throws; it is a
no-op exactly when the session is absent or has no sandboxId; otherwise,
including when the session is already terminated, it calls the adapter
destroy once with any failure swallowed, marks the session terminated and
clears its url. -/
theorem c8_amended (outcome : Except Str Unit)
    (session0 : Option SandboxSession) :
    (doDeleteCf outcome session0).httpStatus = 204
    ∧ (session0 = none → doDeleteCf outcome session0 = ⟨none, 204, 0⟩)
    ∧ (∀ s, session0 = some s → s.sandboxId = none →
        doDeleteCf outcome session0 = ⟨some s, 204, 0⟩)
    ∧ (∀ s h, session0 = some s → s.sandboxId = some h →
        (doDeleteCf outcome session0).adapterCalls = 1
        ∧ (doDeleteCf outcome session0).session
            = some { s with status := SessStatus.terminated, url := none }) := by
  refine ⟨?_, ?_, ?_, ?_⟩
  · cases session0 with
    | none => rfl
    | some s =>
      cases hs : s.sandboxId with
      | none => simp [doDeleteCf, hs]
      | some h => simp [doDeleteCf, hs]
  · intro h; subst h; rfl
  · intro s hs hnone
    subst hs
    simp [doDeleteCf, hnone]
  · intro s h hs hsome
    subst hs
    simp [doDeleteCf, hsome, terminateSandboxCf]

/-- C8 witness: deleting the demo ready session with a failing destroy
still terminates it, clears the url and counts one adapter call. -/
theorem c8_witness :
    (doDeleteCf (Except.error (("destroy failed").data))
        (some demoReadySession)).adapterCalls = 1
    ∧ (doDeleteCf (Except.error (("destroy failed").data))
        (some demoReadySession)).session
        = some { demoReadySession with
            status := SessStatus.terminated, url := none } :=
  (c8_amended (Except.error (("destroy failed").data))
      (some demoReadySession)).2.2.2
    demoReadySession (("old-id").data) rfl rfl

/-- C9 counterexample: the Daytona provider terminate raises a wrapped
Error when the workspace lookup fails, as it does for an already-absent
instance, so terminate is not idempotent for every adapter variant. -/
theorem c9_counterexample :
    daytonaTerminate (Except.error (("workspace not found").data))
        (Except.ok ()) (Except.ok ())
      = Except.error ((("Failed to terminate Daytona workspace: ").data)
          ++ (("workspace not found").data)) := rfl

/-- C9 amended: the Docker provider terminate is best-effort and never
raises, whatever the stop and remove outcomes; the Daytona provider
terminate raises a wrapped Error whenever the workspace lookup fails,
including for an already-absent instance. -/
theorem c9_amended (stopOutcome rmOutcome sOut dOut : Except Str Unit)
    (e : Str) :
    dockerTerminate stopOutcome rmOutcome = Except.ok ()
    ∧ daytonaTerminate (Except.error e) sOut dOut
        = Except.error ((("Failed to terminate Daytona workspace: ").data) ++ e) :=
  ⟨rfl, rfl⟩

/-- C9 witness: a docker terminate whose stop command failed still returns
without raising. -/
theorem c9_witness :
    dockerTerminate (Except.error (("no such container").data)) (Except.ok ())
      = Except.ok () :=
  (c9_amended (Except.error (("no such container").data)) (Except.ok ())
      (Except.ok ()) (Except.ok ()) []).1

/-- C7 witness: the concrete routing failure for an invalid host is sent
as status 500 with kind ProxyError. -/
theorem c7_witness :
    onProxyError (some (("Invalid host format").data))
      = (500, ⟨("ProxyError").data, ("Invalid host format").data⟩) :=
  (c7_amended (("Invalid host format").data)).1

end OpenGithub
